import Mathlib

/-!
Verification development for the cinder block-storage service.

The definitions below are a shallow embedding of the backup coordinator
(`cinder/backup/api.py`), the quota-sets controller
(`cinder/api/contrib/quotas.py`), and — where the volume manager and LVM
driver sources are not part of the corpus — models built from the
specification of those components.  Statuses are the string literals the
source uses; fallible operations return explicit error values; the
record store is passed as explicit state.
-/

deriving instance DecidableEq for Except

namespace Cinder

/-- Error taxonomy of the service (`cinder/exception.py` names). -/
inductive Err where
  | invalidBackup
  | invalidVolume
  | invalidInput
  | serviceNotFound
  | invalidVolumeAttachMode
  | cinderError
deriving Repr, DecidableEq

/-- A volume record as read by the backup coordinator: `status`, `size`
(integer GB), owning `host` (possibly `host@pool`), availability zone. -/
structure Volume where
  status : String
  size : Nat
  host : String
  availability_zone : String
deriving Repr, DecidableEq

/-- A backup record: `status`, `size` (nullable in the store), `host`. -/
structure Backup where
  status : String
  size : Option Nat
  host : String
deriving Repr, DecidableEq

/-- A service row as consulted by `_is_backup_service_enabled`. -/
structure Service where
  availability_zone : String
  host : String
  disabled : Bool
  is_up : Bool
deriving Repr, DecidableEq

/-- `volume['host'].partition('@')[0]`: the component of the host string
before the first `@` (the whole string when no `@` occurs). -/
def partitionHost (s : String) : String :=
  ⟨s.data.takeWhile (fun c => c != '@')⟩

/-- `API._is_backup_service_enabled` (`backup/api.py`): some service row on
the backup topic matches the volume's availability zone and the stripped
host, is not disabled, and is up. -/
def is_backup_service_enabled (services : List Service) (volume : Volume)
    (volume_host : String) : Bool :=
  services.any (fun srv =>
    srv.availability_zone == volume.availability_zone &&
    srv.host == volume_host && !srv.disabled && srv.is_up)

/-- The options dict `API.create` builds for `db.backup_create`. -/
structure BackupOptions where
  volume_id : String
  status : String
  size : Nat
  host : String
deriving Repr, DecidableEq

/-- Observable outcome of `API.create`: the result (error or created
record), the volume's status after the call, and the host the
`create_backup` cast was addressed to (none when no dispatch happened). -/
structure BackupCreateOutcome where
  result : Except Err BackupOptions
  finalVolumeStatus : String
  dispatched : Option String
deriving Repr, DecidableEq

/-- `API.create` (`backup/api.py`): volume must be `available`; a backup
service matching the stripped host must be enabled; only then is the
volume marked `backing-up`, the backup row created in `creating` with the
volume's size and the stripped host, and the cast dispatched to the
backup row's host. -/
def backupCreate (services : List Service) (volume : Volume)
    (volume_id : String) : BackupCreateOutcome :=
  if volume.status != "available" then
    ⟨.error .invalidVolume, volume.status, none⟩
  else
    let volume_host := partitionHost volume.host
    if !is_backup_service_enabled services volume volume_host then
      ⟨.error .serviceNotFound, volume.status, none⟩
    else
      let options : BackupOptions :=
        ⟨volume_id, "creating", volume.size, volume_host⟩
      ⟨.ok options, "backing-up", some options.host⟩

/-- The restore poll loop of `API.restore`, reading the created volume's
status trace from iteration `i` on: return the first observed status that
differs from `creating`; `none` when no exit happened within `fuel`
iterations (the source loop is `while True` and would still be running). -/
def pollFrom (trace : Nat → String) : Nat → Nat → Option String
  | _, 0 => none
  | i, fuel + 1 =>
      if trace i != "creating" then some (trace i)
      else pollFrom trace (i + 1) fuel

/-- The poll loop started at the first observation. -/
def pollWhileCreating (trace : Nat → String) (fuel : Nat) : Option String :=
  pollFrom trace 0 fuel

/-- Observable outcome of `API.restore`: error raised (if any), the
backup's status after the call, the destination volume's status after the
call (when a destination volume exists), and whether the `restore_backup`
cast was dispatched. -/
structure RestoreOutcome where
  error : Option Err
  backupStatus : String
  volumeStatus : Option String
  dispatched : Bool
deriving Repr, DecidableEq

/-- The tail of `API.restore` shared by both destination-volume paths:
the volume must be `available` and at least as large as the backup, else
`InvalidVolume`; otherwise backup → `restoring`, volume →
`restoring-backup`, and the cast is dispatched. -/
def restoreTail (backup : Backup) (size : Nat) (volume : Volume) :
    RestoreOutcome :=
  if volume.status != "available" then
    ⟨some .invalidVolume, backup.status, some volume.status, false⟩
  else if size > volume.size then
    ⟨some .invalidVolume, backup.status, some volume.status, false⟩
  else
    ⟨none, "restoring", some "restoring-backup", true⟩

/-- `API.restore` (`backup/api.py`).  `given` is the optional destination
volume; when it is `none` the coordinator creates a volume of the
backup's size and polls its status trace.  The result is `none` exactly
when the unbounded source loop has not exited within `fuel` iterations. -/
def restore (backup : Backup) (given : Option Volume)
    (trace : Nat → String) (fuel : Nat) : Option RestoreOutcome :=
  if backup.status != "available" then
    some ⟨some .invalidBackup, backup.status, given.map (fun v => v.status), false⟩
  else
    match backup.size with
    | none =>
        some ⟨some .invalidBackup, backup.status, given.map (fun v => v.status), false⟩
    | some size =>
        match given with
        | some volume =>
            if volume.size < size then
              some ⟨some .invalidVolume, backup.status, some volume.status, false⟩
            else
              some (restoreTail backup size volume)
        | none =>
            match pollWhileCreating trace fuel with
            | none => none
            | some st =>
                some (restoreTail backup size ⟨st, size, "", ""⟩)

/-! ## Quota-sets controller (`api/contrib/quotas.py`) -/

/-- A JSON value proposed as a quota limit in the request body: either an
integer or something that is not one (`isinstance(limit, int)` fails). -/
inductive QVal where
  | int (i : Int)
  | notInt
deriving Repr, DecidableEq

/-- HTTP-level errors the controller raises. -/
inductive HTTPErr where
  | badRequest
  | forbidden
deriving Repr, DecidableEq

/-- Errors of the record store's quota operations. -/
inductive DbErr where
  | projectQuotaNotFound
  | adminRequired
deriving Repr, DecidableEq

/-- Quota rows of the record store: (project, resource key, limit). -/
abbrev QuotaRows := List (String × String × Int)

/-- Whether a quota row exists for the project and key. -/
def hasRow (rows : QuotaRows) (project key : String) : Bool :=
  rows.any (fun r => r.1 == project && r.2.1 == key)

/-- Modelled from the spec: the record store's `quota_update`, absent from
the corpus.  It requires an admin context (`AdminRequired` otherwise) and
raises `ProjectQuotaNotFound` when no row exists for the project and key;
otherwise it overwrites the row's limit. -/
def quota_update (isAdmin : Bool) (rows : QuotaRows) (project key : String)
    (value : Int) : Except DbErr QuotaRows :=
  if !isAdmin then .error .adminRequired
  else if !hasRow rows project key then .error .projectQuotaNotFound
  else .ok (rows.map (fun r =>
    if r.1 == project && r.2.1 == key then (project, key, value) else r))

/-- Modelled from the spec: the record store's `quota_create`, absent from
the corpus — inserts a new quota row. -/
def quota_create (rows : QuotaRows) (project key : String) (value : Int) :
    QuotaRows :=
  rows ++ [(project, key, value)]

/-- `QuotaSetsController._validate_quota_limit`: the proposed limit must
be an integer and at least -1 (-1 is the unlimited flag value). -/
def validate_quota_limit : QVal → Option HTTPErr
  | .notInt => some .badRequest
  | .int i => if i < -1 then some .badRequest else none

/-- `QuotaSetsController.update`: iterate over the body's keys; unknown
resource keys are skipped; known keys are validated, then written through
`quota_update`, with `ProjectQuotaNotFound` answered by `quota_create`
and `AdminRequired` surfaced as a forbidden response.  The returned rows
are the record store's state when the loop ends or the error is raised
(writes of earlier keys persist). -/
def quotas_update (isAdmin : Bool) (known : List String) (project : String) :
    List (String × QVal) → QuotaRows → Option HTTPErr × QuotaRows
  | [], rows => (none, rows)
  | (key, qv) :: rest, rows =>
      if known.contains key then
        match validate_quota_limit qv with
        | some e => (some e, rows)
        | none =>
            match qv with
            | .notInt => (some .badRequest, rows)
            | .int value =>
                match quota_update isAdmin rows project key value with
                | .ok rows2 => quotas_update isAdmin known project rest rows2
                | .error .projectQuotaNotFound =>
                    quotas_update isAdmin known project rest
                      (quota_create rows project key value)
                | .error .adminRequired => (some .forbidden, rows)
      else quotas_update isAdmin known project rest rows

/-! ## Volume manager and LVM driver models

The volume manager (`cinder/volume/manager.py`, `cinder/volume/api.py`)
and the LVM driver (`cinder/volume/drivers/lvm.py`) are not part of the
corpus; only their tests are.  The definitions below are modelled from
the specification and checked against the observable behaviour those
tests record. -/

/-- Outcome of the composed extend operation: the error surfaced to the
caller (if any) and the volume's final persisted state. -/
structure ExtendOutcome where
  error : Option Err
  volume : Volume
deriving Repr, DecidableEq

/-- Modelled from the spec: the extend pipeline (API validation plus
manager execution), absent from the corpus.  Extend is allowed only from
`available`; the target size must be strictly greater than the current
size, else `InvalidInput`; a quota-reservation failure or a driver
failure leaves the size unchanged and sets `error_extending` (swallowed
by the manager, no error propagates); on success the new size is
persisted and the status returns to `available`. -/
def extend (v : Volume) (new_size : Nat) (quotaOk driverOk : Bool) :
    ExtendOutcome :=
  if v.status != "available" then ⟨some .invalidVolume, v⟩
  else if new_size ≤ v.size then ⟨some .invalidInput, v⟩
  else if !quotaOk then ⟨none, { v with status := "error_extending" }⟩
  else if !driverOk then ⟨none, { v with status := "error_extending" }⟩
  else ⟨none, { v with size := new_size, status := "available" }⟩

/-- What the driver's `delete_volume` does when dispatched. -/
inductive DriverDeleteResult where
  | ok
  | busy
  | err
deriving Repr, DecidableEq

/-- Outcome of the manager's `delete_volume`: the error propagated to the
requester (if any) and the volume record afterwards (`none` when the
record was destroyed). -/
structure DeleteOutcome where
  raised : Option Err
  record : Option Volume
deriving Repr, DecidableEq

/-- Modelled from the spec: the manager's `delete_volume`, absent from
the corpus.  The driver's `VolumeIsBusy` is caught and rolls the status
back to `available` without propagating; a genuine driver error is fatal
and leaves the record in `error_deleting`; on success the record is
destroyed. -/
def delete_volume (v : Volume) (d : DriverDeleteResult) : DeleteOutcome :=
  match d with
  | .busy => ⟨none, some { v with status := "available" }⟩
  | .err => ⟨some .cinderError, some { v with status := "error_deleting" }⟩
  | .ok => ⟨none, none⟩

/-- Volume admin metadata: ordered key-value pairs. -/
def lookupMeta : List (String × String) → String → Option String
  | [], _ => none
  | p :: rest, k => if p.1 == k then some p.2 else lookupMeta rest k

/-- `volume_admin_metadata_update` for a single key: overwrite in place
when the key exists, append otherwise. -/
def setAdminMeta : List (String × String) → String → String →
    List (String × String)
  | [], k, v => [(k, v)]
  | p :: rest, k, v =>
      if p.1 == k then (k, v) :: rest else p :: setAdminMeta rest k v

/-- A volume as the manager's attach path sees it. -/
structure MVolume where
  status : String
  attach_status : String
  admin_metadata : List (String × String)
deriving Repr, DecidableEq

/-- Modelled from the spec: the manager's `attach_volume`, absent from
the corpus.  The attempted mode is durably recorded as `attached_mode`
admin metadata first; requesting `rw` on a volume whose `readonly` admin
metadata is `True` then fails with `InvalidVolumeAttachMode`, restoring
`attach_status` to `detached` and setting status `error_attaching`; the
target may be an instance uuid or an attached host. -/
def attach_volume (v : MVolume) (_instance_uuid _attached_host : Option String)
    (_mountpoint : String) (mode : String) : Option Err × MVolume :=
  let meta := setAdminMeta v.admin_metadata "attached_mode" mode
  if lookupMeta v.admin_metadata "readonly" == some "True" && mode == "rw" then
    (some .invalidVolumeAttachMode,
      { v with status := "error_attaching", attach_status := "detached",
               admin_metadata := meta })
  else
    (none, { v with status := "in-use", attach_status := "attached",
                    admin_metadata := meta })

/-- The destination host's `location_info` capability as the LVM driver's
`migrate_volume` inspects it: absent, unparsable, or a parsed driver
class and hostname. -/
inductive LocationInfo where
  | missing
  | malformed
  | parsed (driverClass : String) (hostname : String)
deriving Repr, DecidableEq

/-- Modelled from the spec: the LVM driver's `migrate_volume`, absent
from the corpus.  It returns `(moved := false, model_update := none)`
whenever it cannot perform an optimized move — no location info,
malformed location info, differing driver class, differing host, or
volume not `available`; only on an exact driver-and-host match with the
volume `available` does it move, and its model_update is `none` there
as well. -/
def migrate_volume (selfClass selfHostname : String) (v : Volume)
    (li : LocationInfo) : Bool × Option Unit :=
  if v.status != "available" then (false, none)
  else
    match li with
    | .missing => (false, none)
    | .malformed => (false, none)
    | .parsed dc hn =>
        if dc != selfClass || hn != selfHostname then (false, none)
        else (true, none)

/-- A status trace of a volume that never leaves `creating`. -/
def constCreating : Nat → String := fun _ => "creating"

/-- A status trace of a volume that is `available` from the start. -/
def constAvailable : Nat → String := fun _ => "available"

/-- A status trace of a volume whose creation fails: one observation of
`creating`, then `error` forever. -/
def traceErr : Nat → String := fun n => if n == 0 then "creating" else "error"

/-! ## Helper lemmas -/

/-- The poll loop exits within `fuel` iterations from position `i` exactly
when some observation within the window differs from `creating`. -/
theorem pollFrom_isSome_iff (trace : Nat → String) :
    ∀ (fuel i : Nat),
      (pollFrom trace i fuel).isSome ↔
        ∃ n, n < fuel ∧ trace (i + n) ≠ "creating" := by
  intro fuel
  induction fuel with
  | zero =>
      intro i
      simp [pollFrom]
  | succ f ih =>
      intro i
      simp only [pollFrom]
      by_cases h : trace i = "creating"
      · simp only [h, bne_self_eq_false, Bool.false_eq_true, if_false]
        constructor
        · intro hs
          obtain ⟨m, hm, hne⟩ := (ih (i + 1)).mp hs
          refine ⟨m + 1, by omega, ?_⟩
          have he : i + (m + 1) = i + 1 + m := by omega
          rw [he]; exact hne
        · rintro ⟨n, hn, hne⟩
          apply (ih (i + 1)).mpr
          match n, hn, hne with
          | 0, _, hne => exact absurd h (by simpa using hne)
          | m + 1, hn, hne =>
              refine ⟨m, by omega, ?_⟩
              have he : i + 1 + m = i + (m + 1) := by omega
              rw [he]; exact hne
      · have hb : (trace i != "creating") = true := by simpa using h
        simp only [hb, if_true, Option.isSome_some, true_iff]
        exact ⟨0, by omega, by simpa using h⟩

/-- Whatever status the poll loop exits with differs from `creating`. -/
theorem pollFrom_some_ne_creating (trace : Nat → String) :
    ∀ (fuel i : Nat) (st : String),
      pollFrom trace i fuel = some st → st ≠ "creating" := by
  intro fuel
  induction fuel with
  | zero =>
      intro i st h
      simp [pollFrom] at h
  | succ f ih =>
      intro i st h
      simp only [pollFrom] at h
      by_cases hc : trace i = "creating"
      · simp only [hc, bne_self_eq_false, Bool.false_eq_true, if_false] at h
        exact ih (i + 1) st h
      · have hb : (trace i != "creating") = true := by simpa using hc
        simp only [hb, if_true, Option.some.injEq] at h
        rw [← h]; exact hc

/-- On an `available` backup with a non-null size and no destination
volume, `restore` returns an observation exactly when the poll loop
exits. -/
theorem restore_none_isSome (backup : Backup) (sz : Nat)
    (trace : Nat → String) (fuel : Nat) (h1 : backup.status = "available")
    (h2 : backup.size = some sz) :
    (restore backup none trace fuel).isSome
      = (pollWhileCreating trace fuel).isSome := by
  simp only [restore, h1, h2, bne_self_eq_false, Bool.false_eq_true,
    if_false]
  cases hp : pollWhileCreating trace fuel <;> simp

/-- Looking up the key just written returns the written value. -/
theorem lookupMeta_setAdminMeta_same (m : List (String × String))
    (k v : String) : lookupMeta (setAdminMeta m k v) k = some v := by
  induction m with
  | nil => simp [setAdminMeta, lookupMeta]
  | cons p rest ih =>
      by_cases h : p.1 = k
      · simp [setAdminMeta, lookupMeta, h]
      · simp [setAdminMeta, lookupMeta, h, ih]

/-- Writing one key leaves the lookup of any other key unchanged. -/
theorem lookupMeta_setAdminMeta_ne (m : List (String × String))
    (k k2 v : String) (hne : k2 ≠ k) :
    lookupMeta (setAdminMeta m k v) k2 = lookupMeta m k2 := by
  induction m with
  | nil => simp [setAdminMeta, lookupMeta, Ne.symm hne]
  | cons p rest ih =>
      by_cases h : p.1 = k
      · simp [setAdminMeta, lookupMeta, h, Ne.symm hne]
      · by_cases h2 : p.1 = k2
        · simp [setAdminMeta, lookupMeta, h, h2, hne]
        · simp [setAdminMeta, lookupMeta, h, h2, ih]

/-! ## Claim theorems -/

/-- Claim C1, counterexample: the restore-without-destination-volume poll
loop is not bounded — on a backup in `available` with size 1 and a
created volume whose status never leaves `creating`, no number of
iterations makes `restore` return: the `while True` loop never
terminates. -/
theorem restore_poll_const_creating_never_returns :
    ¬ ∃ fuel,
        (restore ⟨"available", some 1, "host1"⟩ none constCreating
          fuel).isSome := by
  rintro ⟨fuel, hs⟩
  rw [restore_none_isSome ⟨"available", some 1, "host1"⟩ 1 constCreating
    fuel rfl rfl] at hs
  simp only [pollWhileCreating] at hs
  obtain ⟨n, _, hn⟩ := (pollFrom_isSome_iff constCreating fuel 0).mp hs
  exact hn rfl

/-- Claim C1 (amended): for every restore request with no destination
volume on an `available` backup with a non-null size, the coordinator
synchronously creates a destination volume and polls its status in a
wait loop with no iteration or time bound; the loop ends exactly once
the status leaves `creating` (its exit observation is never `creating`),
and it terminates if and only if the status eventually differs from
`creating`. -/
theorem restore_poll_terminates_iff (backup : Backup) (sz : Nat)
    (trace : Nat → String) (h1 : backup.status = "available")
    (h2 : backup.size = some sz) :
    ((∃ fuel, (restore backup none trace fuel).isSome)
        ↔ (∃ n, trace n ≠ "creating")) ∧
    (∀ fuel st, pollWhileCreating trace fuel = some st →
        st ≠ "creating") := by
  constructor
  · constructor
    · rintro ⟨fuel, hs⟩
      rw [restore_none_isSome backup sz trace fuel h1 h2] at hs
      simp only [pollWhileCreating] at hs
      obtain ⟨n, _, hn⟩ := (pollFrom_isSome_iff trace fuel 0).mp hs
      exact ⟨n, by simpa using hn⟩
    · rintro ⟨n, hn⟩
      refine ⟨n + 1, ?_⟩
      rw [restore_none_isSome backup sz trace (n + 1) h1 h2]
      simp only [pollWhileCreating]
      exact (pollFrom_isSome_iff trace (n + 1) 0).mpr
        ⟨n, by omega, by simpa using hn⟩
  · intro fuel st h
    simp only [pollWhileCreating] at h
    exact pollFrom_some_ne_creating trace fuel 0 st h

/-- Claim C1, witness: the amended statement applied to a backup in
`available` with size 1 and a created volume that is `available` at
once. -/
theorem restore_poll_terminates_iff_witness :
    (Backup.mk "available" (some 1) "host1").status = "available" ∧
    (Backup.mk "available" (some 1) "host1").size = some 1 ∧
    (((∃ fuel, (restore (Backup.mk "available" (some 1) "host1") none
          constAvailable fuel).isSome)
        ↔ (∃ n, constAvailable n ≠ "creating")) ∧
     (∀ fuel st, pollWhileCreating constAvailable fuel = some st →
        st ≠ "creating")) :=
  ⟨rfl, rfl,
    restore_poll_terminates_iff (Backup.mk "available" (some 1) "host1") 1
      constAvailable rfl rfl⟩

/-- Claim C5, counterexample: on an `available` backup of size 1 with no
destination volume given, when the auto-created volume leaves `creating`
into `error`, `restore` raises `InvalidVolume` and dispatches nothing —
the claim's `otherwise` clause promised `restoring`/`restoring-backup`
and a dispatch. -/
theorem restore_autocreated_error_volume_raises :
    restore ⟨"available", some 1, "host1"⟩ none traceErr 3
      = some ⟨some Err.invalidVolume, "available", some "error", false⟩ := by
  decide

/-- Claim C5 (amended): backup not `available` or with null size →
`InvalidBackup`, no state change; a destination volume — given, or
auto-created once its status leaves `creating` — that is smaller than
the backup or not `available` → `InvalidVolume`, no state change;
otherwise backup → `restoring` and volume → `restoring-backup` before
the dispatch. -/
theorem restore_validation_behavior (backup : Backup) (sz : Nat)
    (vol : Volume) (trace : Nat → String) (fuel : Nat) (st : String) :
    (backup.status ≠ "available" →
       restore backup (some vol) trace fuel
         = some ⟨some .invalidBackup, backup.status, some vol.status,
             false⟩) ∧
    (backup.status = "available" → backup.size = none →
       restore backup (some vol) trace fuel
         = some ⟨some .invalidBackup, backup.status, some vol.status,
             false⟩) ∧
    (backup.status = "available" → backup.size = some sz →
       vol.size < sz →
       restore backup (some vol) trace fuel
         = some ⟨some .invalidVolume, backup.status, some vol.status,
             false⟩) ∧
    (backup.status = "available" → backup.size = some sz →
       sz ≤ vol.size → vol.status ≠ "available" →
       restore backup (some vol) trace fuel
         = some ⟨some .invalidVolume, backup.status, some vol.status,
             false⟩) ∧
    (backup.status = "available" → backup.size = some sz →
       sz ≤ vol.size → vol.status = "available" →
       restore backup (some vol) trace fuel
         = some ⟨none, "restoring", some "restoring-backup", true⟩) ∧
    (backup.status = "available" → backup.size = some sz →
       pollWhileCreating trace fuel = some st → st ≠ "available" →
       restore backup none trace fuel
         = some ⟨some .invalidVolume, backup.status, some st, false⟩) ∧
    (backup.status = "available" → backup.size = some sz →
       pollWhileCreating trace fuel = some st → st = "available" →
       restore backup none trace fuel
         = some ⟨none, "restoring", some "restoring-backup", true⟩) := by
  refine ⟨?_, ?_, ?_, ?_, ?_, ?_, ?_⟩
  · intro h
    simp [restore, h]
  · intro h1 h2
    simp [restore, h1, h2]
  · intro h1 h2 h3
    simp [restore, h1, h2, h3]
  · intro h1 h2 h4 h5
    have hlt : ¬ vol.size < sz := by omega
    simp [restore, restoreTail, h1, h2, hlt, h5]
  · intro h1 h2 h4 h5
    have hlt : ¬ vol.size < sz := by omega
    simp [restore, restoreTail, h1, h2, hlt, h5, Nat.not_lt.mpr h4]
  · intro h1 h2 hp hst
    simp [restore, restoreTail, h1, h2, hp, hst]
  · intro h1 h2 hp hst
    simp [restore, restoreTail, h1, h2, hp, hst]

/-- Claim C5, witness: the given-volume success branch at a backup of
size 1 restored into an `available` volume of size 2. -/
theorem restore_validation_behavior_witness :
    restore ⟨"available", some 1, "h1"⟩
        (some ⟨"available", 2, "hv", "az"⟩) (fun _ => "creating") 0
      = some ⟨none, "restoring", some "restoring-backup", true⟩ :=
  (restore_validation_behavior ⟨"available", some 1, "h1"⟩ 1
      ⟨"available", 2, "hv", "az"⟩ (fun _ => "creating") 0 "x"
      ).2.2.2.2.1 rfl rfl (by decide) rfl

/-- Claim C2: from `available` at size `s`, extend to `new_size ≤ s`
fails with `InvalidInput` and leaves size and status unchanged; with
`new_size > s`, a quota-reservation failure or a driver failure leaves
the size unchanged and sets `error_extending`, while driver success
persists the requested size and returns the status to `available`. -/
theorem extend_spec_behavior (v : Volume) (ns : Nat) (q d : Bool)
    (h : v.status = "available") :
    (ns ≤ v.size → extend v ns q d = ⟨some .invalidInput, v⟩) ∧
    (v.size < ns →
       extend v ns false d = ⟨none, { v with status := "error_extending" }⟩) ∧
    (v.size < ns →
       extend v ns true false
         = ⟨none, { v with status := "error_extending" }⟩) ∧
    (v.size < ns →
       extend v ns true true
         = ⟨none, { v with size := ns, status := "available" }⟩) := by
  refine ⟨?_, ?_, ?_, ?_⟩
  · intro h1
    simp [extend, h, h1]
  · intro h1
    have h2 : ¬ ns ≤ v.size := by omega
    simp [extend, h, h2]
  · intro h1
    have h2 : ¬ ns ≤ v.size := by omega
    simp [extend, h, h2]
  · intro h1
    have h2 : ¬ ns ≤ v.size := by omega
    simp [extend, h, h2]

/-- Claim C2, witness: extending an `available` volume of size 2 to 3
with quota and driver success. -/
theorem extend_spec_behavior_witness :
    extend ⟨"available", 2, "h", "az"⟩ 3 true true
      = ⟨none, ⟨"available", 3, "h", "az"⟩⟩ :=
  (extend_spec_behavior ⟨"available", 2, "h", "az"⟩ 3 true true
    rfl).2.2.2 (by decide)

/-- Claim C3: when the driver raises `VolumeIsBusy` during a
`delete_volume` dispatch, the manager propagates nothing, the record
still exists, and its status is rolled back to `available`; any other
driver exception leaves the record in `error_deleting`. -/
theorem delete_volume_busy_vs_error (v : Volume) :
    delete_volume v .busy
      = ⟨none, some { v with status := "available" }⟩ ∧
    (delete_volume v .busy).raised = none ∧
    (delete_volume v .busy).record.isSome = true ∧
    delete_volume v .err
      = ⟨some .cinderError, some { v with status := "error_deleting" }⟩ :=
  ⟨rfl, rfl, rfl, rfl⟩

/-- Claim C4: a manager attach with mode `rw` on a volume whose
`readonly` admin metadata is `True` — whatever the target, instance uuid
or attached host — raises `InvalidVolumeAttachMode`, leaves
`attach_status` `detached` and status `error_attaching`, and the admin
metadata durably records `attached_mode = rw` while preserving
`readonly`. -/
theorem attach_volume_readonly_rw_rejected (v : MVolume)
    (iu ah : Option String) (mp : String)
    (h : lookupMeta v.admin_metadata "readonly" = some "True") :
    attach_volume v iu ah mp "rw"
      = (some .invalidVolumeAttachMode,
         ⟨"error_attaching", "detached",
          setAdminMeta v.admin_metadata "attached_mode" "rw"⟩) ∧
    lookupMeta (attach_volume v iu ah mp "rw").2.admin_metadata
        "attached_mode" = some "rw" ∧
    lookupMeta (attach_volume v iu ah mp "rw").2.admin_metadata
        "readonly" = some "True" := by
  refine ⟨?_, ?_, ?_⟩
  · simp [attach_volume, h]
  · simp [attach_volume, h, lookupMeta_setAdminMeta_same]
  · simp only [attach_volume, h]
    simp only [beq_self_eq_true, Bool.and_self, if_true]
    rw [lookupMeta_setAdminMeta_ne v.admin_metadata "attached_mode"
      "readonly" "rw" (by decide)]
    exact h

/-- Claim C4, witness: the rejection on a readonly volume targeted at an
instance uuid. -/
theorem attach_volume_readonly_rw_rejected_witness :
    lookupMeta [("readonly", "True")] "readonly" = some "True" ∧
    attach_volume ⟨"available", "detached", [("readonly", "True")]⟩
        (some "i-1") none "/dev/sdf" "rw"
      = (some Err.invalidVolumeAttachMode,
         ⟨"error_attaching", "detached",
          [("readonly", "True"), ("attached_mode", "rw")]⟩) :=
  ⟨rfl,
    (attach_volume_readonly_rw_rejected
      ⟨"available", "detached", [("readonly", "True")]⟩
      (some "i-1") none "/dev/sdf" rfl).1⟩

/-- Claim C6: a backup create on a volume that is not `available` raises
`InvalidVolume`; one with no enabled, up, non-disabled service matching
the volume's availability zone and stripped host raises
`ServiceNotFound`; in both cases the volume's status is unchanged and
nothing is dispatched. -/
theorem backup_create_failure_checks (services : List Service)
    (volume : Volume) (vid : String) :
    (volume.status ≠ "available" →
       backupCreate services volume vid
         = ⟨.error .invalidVolume, volume.status, none⟩) ∧
    (volume.status = "available" →
       is_backup_service_enabled services volume
           (partitionHost volume.host) = false →
       backupCreate services volume vid
         = ⟨.error .serviceNotFound, volume.status, none⟩) := by
  constructor
  · intro h
    simp [backupCreate, h]
  · intro h1 h2
    simp [backupCreate, h1, h2]

/-- Claim C6, witness: both failure branches on concrete volumes with no
service rows. -/
theorem backup_create_failure_checks_witness :
    backupCreate [] ⟨"in-use", 1, "h1", "az"⟩ "v1"
      = ⟨.error .invalidVolume, "in-use", none⟩ ∧
    backupCreate [] ⟨"available", 1, "h1", "az"⟩ "v1"
      = ⟨.error .serviceNotFound, "available", none⟩ :=
  ⟨(backup_create_failure_checks [] ⟨"in-use", 1, "h1", "az"⟩ "v1").1
      (by decide),
   (backup_create_failure_checks [] ⟨"available", 1, "h1", "az"⟩ "v1").2
      rfl rfl⟩

/-- Claim C7: the driver's `migrate_volume` declines — returning
`(moved := false, model_update := none)` — on missing location info,
malformed location info, a differing driver class, a differing host, or
a volume not in `available`; it moves only on an exact driver-and-host
match with the volume `available`. -/
theorem migrate_volume_decline_and_proceed (selfC selfH dc hn : String)
    (v : Volume) :
    (migrate_volume selfC selfH v .missing = (false, none)) ∧
    (migrate_volume selfC selfH v .malformed = (false, none)) ∧
    (dc ≠ selfC →
       migrate_volume selfC selfH v (.parsed dc hn) = (false, none)) ∧
    (hn ≠ selfH →
       migrate_volume selfC selfH v (.parsed dc hn) = (false, none)) ∧
    (v.status ≠ "available" → ∀ li,
       migrate_volume selfC selfH v li = (false, none)) ∧
    (v.status = "available" →
       migrate_volume selfC selfH v (.parsed selfC selfH)
         = (true, none)) ∧
    ((migrate_volume selfC selfH v (.parsed dc hn)).1 = true →
       v.status = "available" ∧ dc = selfC ∧ hn = selfH) := by
  refine ⟨?_, ?_, ?_, ?_, ?_, ?_, ?_⟩
  · by_cases hs : v.status = "available" <;> simp [migrate_volume, hs]
  · by_cases hs : v.status = "available" <;> simp [migrate_volume, hs]
  · intro h
    by_cases hs : v.status = "available" <;> simp [migrate_volume, hs, h]
  · intro h
    by_cases hs : v.status = "available" <;> simp [migrate_volume, hs, h]
  · intro h li
    simp [migrate_volume, h]
  · intro h
    simp [migrate_volume, h]
  · intro h
    by_cases hs : v.status = "available"
    · by_cases hdc : dc = selfC
      · by_cases hhn : hn = selfH
        · exact ⟨hs, hdc, hhn⟩
        · exact absurd h (by simp [migrate_volume, hs, hdc, hhn])
      · exact absurd h (by simp [migrate_volume, hs, hdc])
    · exact absurd h (by simp [migrate_volume, hs])

/-- Claim C7, witness: a differing driver class declines and the exact
match proceeds, on an `available` volume. -/
theorem migrate_volume_decline_and_proceed_witness :
    ("FooDriver" ≠ "LVMVolumeDriver") ∧
    migrate_volume "LVMVolumeDriver" "h1" ⟨"available", 1, "h1", "az"⟩
        (.parsed "FooDriver" "h1") = (false, none) ∧
    migrate_volume "LVMVolumeDriver" "h1" ⟨"available", 1, "h1", "az"⟩
        (.parsed "LVMVolumeDriver" "h1") = (true, none) :=
  ⟨by decide,
   (migrate_volume_decline_and_proceed "LVMVolumeDriver" "h1" "FooDriver"
      "h1" ⟨"available", 1, "h1", "az"⟩).2.2.1 (by decide),
   (migrate_volume_decline_and_proceed "LVMVolumeDriver" "h1" "FooDriver"
      "h1" ⟨"available", 1, "h1", "az"⟩).2.2.2.2.2.1 rfl⟩

/-- Claim C8: a successful backup create builds the backup row with
status `creating`, the source volume's size, and the volume's host
stripped of any `@pool` suffix, and the `create_backup` cast is
addressed to that stripped host. -/
theorem backup_create_success_record (services : List Service)
    (volume : Volume) (vid : String) (h1 : volume.status = "available")
    (h2 : is_backup_service_enabled services volume
        (partitionHost volume.host) = true) :
    backupCreate services volume vid
      = ⟨.ok ⟨vid, "creating", volume.size, partitionHost volume.host⟩,
         "backing-up", some (partitionHost volume.host)⟩ := by
  simp [backupCreate, h1, h2]

/-- Claim C8, witness: a volume on `host1@pool` with a matching enabled
service; the record and the dispatch both use `host1`. -/
theorem backup_create_success_record_witness :
    is_backup_service_enabled [⟨"az", "host1", false, true⟩]
        ⟨"available", 5, "host1@pool", "az"⟩
        (partitionHost "host1@pool") = true ∧
    backupCreate [⟨"az", "host1", false, true⟩]
        ⟨"available", 5, "host1@pool", "az"⟩ "v1"
      = ⟨.ok ⟨"v1", "creating", 5, partitionHost "host1@pool"⟩,
         "backing-up", some (partitionHost "host1@pool")⟩ :=
  ⟨by decide,
   backup_create_success_record [⟨"az", "host1", false, true⟩]
      ⟨"available", 5, "host1@pool", "az"⟩ "v1" rfl (by decide)⟩

/-- Claim C9: a quota-set update of a known key whose `quota_update`
raises `ProjectQuotaNotFound` creates the quota row with the same
project, key and value and returns successfully with the resulting
rows; an `AdminRequired` error surfaces as a forbidden response. -/
theorem quotas_update_notfound_creates_row (known : List String)
    (project key : String) (v : Int) (rows : QuotaRows)
    (hk : known.contains key = true) (hv : -1 ≤ v)
    (hr : hasRow rows project key = false) :
    quotas_update true known project [(key, .int v)] rows
      = (none, quota_create rows project key v) ∧
    quotas_update false known project [(key, .int v)] rows
      = (some .forbidden, rows) := by
  have hnlt : ¬ v < -1 := by omega
  have hk2 : key ∈ known := by simpa using hk
  constructor
  · simp [quotas_update, validate_quota_limit, quota_update, hk2, hr,
      hnlt]
  · simp [quotas_update, validate_quota_limit, quota_update, hk2, hnlt]

/-- Claim C9, witness: creating the missing row `volumes = 10` for
project `p` on an empty store, and the forbidden response without an
admin context. -/
theorem quotas_update_notfound_creates_row_witness :
    (["volumes"] : List String).contains "volumes" = true ∧
    hasRow [] "p" "volumes" = false ∧
    quotas_update true ["volumes"] "p" [("volumes", QVal.int 10)] []
      = (none, [("p", "volumes", 10)]) ∧
    quotas_update false ["volumes"] "p" [("volumes", QVal.int 10)] []
      = (some .forbidden, []) :=
  ⟨by decide, rfl,
   (quotas_update_notfound_creates_row ["volumes"] "p" "volumes" 10 []
      (by decide) (by decide) rfl).1,
   (quotas_update_notfound_creates_row ["volumes"] "p" "volumes" 10 []
      (by decide) (by decide) rfl).2⟩

/-- Claim C10, counterexample: with body
`volumes = 5, gigabytes = non-integer`, the update rejects the bad value
with a bad request only after the row for `volumes` was already written
— not before any database write. -/
theorem quotas_update_write_before_reject :
    quotas_update true ["volumes", "gigabytes"] "p"
        [("volumes", QVal.int 5), ("gigabytes", QVal.notInt)] []
      = (some HTTPErr.badRequest, [("p", "volumes", 5)]) ∧
    ([("p", "volumes", 5)] : QuotaRows) ≠ ([] : QuotaRows) := by
  constructor
  · decide
  · decide

/-- Claim C10 (amended): a proposed limit that is not an integer or is
below -1 is rejected with a bad request before that key's own database
write (writes for keys earlier in the body persist); -1 is accepted as
the unlimited flag; unknown keys are silently skipped. -/
theorem quotas_update_validation_behavior (isAdmin : Bool)
    (known : List String) (project key : String) (qv : QVal)
    (rest : List (String × QVal)) (rows : QuotaRows) :
    (validate_quota_limit (QVal.int (-1)) = none) ∧
    (∀ i : Int, i < -1 →
       validate_quota_limit (QVal.int i) = some HTTPErr.badRequest) ∧
    (validate_quota_limit QVal.notInt = some HTTPErr.badRequest) ∧
    (known.contains key = true →
       validate_quota_limit qv = some HTTPErr.badRequest →
       quotas_update isAdmin known project ((key, qv) :: rest) rows
         = (some HTTPErr.badRequest, rows)) ∧
    (known.contains key = false →
       quotas_update isAdmin known project ((key, qv) :: rest) rows
         = quotas_update isAdmin known project rest rows) := by
  refine ⟨by decide, ?_, rfl, ?_, ?_⟩
  · intro i hi
    simp [validate_quota_limit, hi]
  · intro hk hv
    have hk2 : key ∈ known := by simpa using hk
    simp [quotas_update, hk2, hv]
  · intro hk
    have hk2 : key ∉ known := by simpa using hk
    simp [quotas_update, hk2]

/-- Claim C10, witness: a below--1 value is invalid, and an unknown key
is skipped without effect. -/
theorem quotas_update_validation_behavior_witness :
    ((-5 : Int) < -1 ∧
     validate_quota_limit (QVal.int (-5)) = some HTTPErr.badRequest) ∧
    ((["volumes"] : List String).contains "snapshots" = false ∧
     quotas_update true ["volumes"] "p" [("snapshots", QVal.int 3)] []
       = quotas_update true ["volumes"] "p" [] []) :=
  ⟨⟨by decide,
    (quotas_update_validation_behavior true ["volumes"] "p" "snapshots"
        (QVal.int 3) [] []).2.1 (-5) (by decide)⟩,
   ⟨by decide,
    (quotas_update_validation_behavior true ["volumes"] "p" "snapshots"
        (QVal.int 3) [] []).2.2.2.2 (by decide)⟩⟩

end Cinder
